import Mathlib

/-!
Shallow embedding of the job-orchestration core of `desktop_app_2.py`
(Folder Uploader desktop application).

The embedded pieces are:

* `run_upload_mp` — the worker function run in a separate process.  It is
  modelled as a pure function from the worker's inputs and the observable
  behaviour of the external subprocess (`SpawnResult`) to the list of
  messages it places on its multiprocessing queue, in order.
* `monitor_all_outputs` — the 200ms poll loop.  Its per-event effect on a
  job's `status` field is `apply_event`; draining a queue is `drainEvents`;
  one whole invocation over the job list is `pollStep`, returning the new
  job list and whether the loop reschedules itself (`root.after(200, ...)`).
* `stop_upload` / `stop_selected_job` — per-job effect is `stop_job_state`;
  the code guards on `job['process'].is_alive()`, not on the status field.
* `load_settings` — modelled over an optional parsed settings file
  (`none` models both an absent file and any exception while reading or
  parsing, the code's `except` path which leaves every field unchanged).

Process liveness (`is_alive()`) is an external input; each `Job` carries the
snapshot of it taken during one poll invocation.  Machine-level effects
(signals, file systems) are out of the embedding; `emittedBeforeKill` models
`Process.terminate()` by truncation of the worker's message list, since
SIGTERM ends the worker immediately (Python `finally` blocks do not run and
descendant processes are not terminated, per the `multiprocessing` docs).
-/

/-- Messages placed on a job's multiprocessing queue by `run_upload_mp`:
the code uses the tuples `('output', msg)`, `('error', msg)`,
`('status', msg)` and `('finished', None)`. -/
inductive QueueMsg where
  | output (text : String)
  | error (text : String)
  | status (text : String)
  | finished
deriving DecidableEq, Repr

/-- Argument dictionary handed to `run_upload_mp` (built in
`_launch_upload_job`).  `descriptor` and `avatar` are `StringVar`s in the
source, so they arrive as strings; `multi_face_policy` is an `IntVar`. -/
structure UploadArgs where
  script_path : String
  folder_path : String
  username : String
  password : String
  source : String
  descriptor : String
  origin : String
  avatar : String
  list_id : String
  warped : Bool
  name_as_userdata : Bool
  multi_face_policy : Int
deriving DecidableEq, Repr

/-- The `cmd` list built at the top of `run_upload_mp` (lines 23-38 of the
source), with `python_exec` standing for `sys.executable`. -/
def build_cmd (python_exec : String) (a : UploadArgs) : List String :=
  [python_exec, a.script_path,
   "--login", a.username,
   "--password", a.password,
   "--source", a.source,
   "--warped", if a.warped then "1" else "0",
   "--name_as_userdata", if a.name_as_userdata then "1" else "0",
   "--descriptor", a.descriptor,
   "--origin", a.origin,
   "--avatar", a.avatar,
   "--list_id", a.list_id,
   "--multi_face_policy", toString a.multi_face_policy,
   "--basic_attr", "1",
   "--score_threshold", "0.0",
   "--list_linked", "1"]

/-- The two `output_queue.put(('output', ...))` calls made before
`subprocess.Popen` (lines 40-41 of the source). -/
def preSpawnEvents (python_exec : String) (a : UploadArgs) : List QueueMsg :=
  [QueueMsg.output ("Starting upload from: " ++ a.folder_path),
   QueueMsg.output ("Command: " ++ String.intercalate " " (build_cmd python_exec a))]

/-- Observable behaviour of the `subprocess.Popen` call and the spawned
process: either `Popen` (or anything else inside the `try`) raises, with
the exception's string, or the process runs, yielding the sequence of lines
`proc.stdout.readline` returns before end of stream and the exit code. -/
inductive SpawnResult where
  | spawnError (message : String)
  | ran (lines : List String) (returncode : Int)
deriving DecidableEq, Repr

/-- Status message put by `run_upload_mp` after `proc.wait()`:
`'Upload completed successfully!'` on exit code 0, else
`f'Upload failed with code {proc.returncode}'`. -/
def exitStatusMsg (returncode : Int) : String :=
  if returncode = 0 then "Upload completed successfully!"
  else "Upload failed with code " ++ toString returncode

/-- The ordered list of messages `run_upload_mp` puts on its queue, as a
function of the subprocess behaviour.  On the spawn-error path the two
pre-spawn outputs have already been put; the `except` clause puts the
`error` message and the `finally` clause puts `finished`.  On the normal
path each nonempty line read is stripped and forwarded, then the single
exit-status message, then `finished`. -/
def run_upload_mp (python_exec : String) (a : UploadArgs) : SpawnResult → List QueueMsg
  | SpawnResult.spawnError msg =>
      preSpawnEvents python_exec a ++
      [QueueMsg.error ("Error running upload: " ++ msg), QueueMsg.finished]
  | SpawnResult.ran lines rc =>
      preSpawnEvents python_exec a ++
      (lines.filter (fun l => l ≠ "")).map (fun l => QueueMsg.output l.trim) ++
      [QueueMsg.status (exitStatusMsg rc), QueueMsg.finished]

/-- Truncation model of `job['process'].terminate()`: the worker is killed
by SIGTERM after having emitted some prefix of its message list; messages
after the kill point are never put (Python `finally` blocks do not run on
SIGTERM, and the external subprocess is not terminated by it). -/
def emittedBeforeKill (python_exec : String) (a : UploadArgs) (b : SpawnResult)
    (k : Nat) : List QueueMsg :=
  (run_upload_mp python_exec a b).take k

/-- Boolean test for a `status` message. -/
def isStatus : QueueMsg → Bool
  | QueueMsg.status _ => true
  | _ => false

/-- Proposition that a message is one actually emitted by some run of
`run_upload_mp`. -/
def RunnerEmitted (e : QueueMsg) : Prop :=
  ∃ python_exec a b, e ∈ run_upload_mp python_exec a b

/-- One tracked job as seen by one poll-loop invocation: the jobs list holds
dicts `{'process', 'queue', 'folder', 'list_id', 'status'}`; `alive` is the
snapshot of `job['process'].is_alive()` during the invocation and `queue`
the messages currently available from `job['queue']`. -/
structure Job where
  alive : Bool
  status : String
  queue : List QueueMsg
  folder : String
  list_id : String
deriving DecidableEq, Repr

/-- Initial status string given to a job dict by `_launch_upload_job`. -/
def initialStatus : String := "Uploading..."

/-- Effect of one drained message on `job['status']` in
`monitor_all_outputs` (lines 436-446): `'status'` overwrites the field with
its payload, `'finished'` overwrites it with `'Finished'`, `'output'` and
`'error'` only log and leave the status unchanged. -/
def apply_event (st : String) : QueueMsg → String
  | QueueMsg.status msg => msg
  | QueueMsg.finished => "Finished"
  | _ => st

/-- Draining a whole queue: the `while True: q.get_nowait()` loop applies
`apply_event` to the messages in FIFO order. -/
def drainEvents (st : String) (q : List QueueMsg) : String :=
  q.foldl apply_event st

/-- Effect of one poll invocation's drain on one job. -/
def drainJob (j : Job) : Job :=
  { j with status := drainEvents j.status j.queue, queue := [] }

/-- Whether the prune on line 452 keeps a (drained) job:
`j['process'].is_alive() or j['status'] != 'Finished'`. -/
def keepJob (j : Job) : Bool :=
  j.alive || j.status ≠ "Finished"

/-- One whole invocation of `monitor_all_outputs` over the jobs list:
drains every job's queue, computes `still_running` as "some job's process
is alive" (checked per job before the prune), prunes, and reschedules
itself via `root.after(200, ...)` exactly when `still_running` is true. -/
def pollStep (jobs : List Job) : List Job × Bool :=
  ((jobs.map drainJob).filter keepJob, jobs.any (fun j => j.alive))

/-- Whether one poll invocation removes a given job from the tracked list:
the negation of `keepJob` after the drain. -/
def removedByPoll (j : Job) : Bool :=
  !(keepJob (drainJob j))

/-- Per-job effect of `stop_upload` / `stop_selected_job` (lines 478-485
and 502-510): if the worker process is alive it is terminated and the
status field set to `'Stopped'`; otherwise nothing is changed (the code
only logs `'Job already finished'` / `'No running jobs to stop.'`). -/
def stop_job_state (j : Job) : Job :=
  if j.alive then { j with status := "Stopped" } else j

/-- Effect of `stop_upload` on the whole jobs list, with the count of jobs
it reports as stopped. -/
def stop_upload (jobs : List Job) : List Job × Nat :=
  (jobs.map stop_job_state, (jobs.filter (fun j => j.alive)).length)

/-- Status strings that denote, under the spec's vocabulary, a terminal
job status as stored by this code: `Succeeded` is
`'Upload completed successfully!'`, `Failed(rc)` is
`f'Upload failed with code {rc}'`, `Stopped` is `'Stopped'`.  (The code
never stores an `Error` status: `'error'` messages only log.) -/
def TerminalStatus (s : String) : Prop :=
  s = "Upload completed successfully!" ∨ s = "Stopped" ∨
    ∃ rc : Int, s = "Upload failed with code " ++ toString rc

/-- One operation a job's status field can undergo between launch and
removal: a poll drains the currently available messages, or a cancel
(`stop_upload` / `stop_selected_job`) runs with the process alive or not. -/
inductive JobOp where
  | drain (events : List QueueMsg)
  | cancel (alive : Bool)

/-- Effect of one operation on the status field alone. -/
def applyOp (st : String) : JobOp → String
  | JobOp.drain evs => drainEvents st evs
  | JobOp.cancel alive => if alive then "Stopped" else st

/-- Effect of a sequence of operations on the status field. -/
def applyOps (st : String) (ops : List JobOp) : String :=
  ops.foldl applyOp st

/-- Validity of an operation: a drain only ever delivers messages that the
job's worker actually emits. -/
def ValidOp : JobOp → Prop
  | JobOp.drain evs => ∀ e ∈ evs, RunnerEmitted e
  | JobOp.cancel _ => True

/-- In-memory settings record; the defaults are the initial values of the
corresponding `tk` variables set in `FolderUploaderApp.__init__`. -/
structure Settings where
  username : String
  password : String
  descriptor : String
  origin : String
  avatar : String
  list_id : String
  warped : Bool
  name_as_userdata : Bool
  multi_face_policy : Int
deriving DecidableEq, Repr

/-- Built-in defaults: the values the `tk` variables hold when
`load_settings` runs during `__init__`. -/
def defaultSettings : Settings :=
  { username := ""
    password := ""
    descriptor := "1"
    origin := "http://127.0.0.1:5000"
    avatar := "1"
    list_id := "90936600-d44b-4717-9b33-d685faf00616"
    warped := false
    name_as_userdata := false
    multi_face_policy := 1 }

/-- A parsed `uploader_settings.json`: each key may be absent.  Unknown
keys never reach any `settings.get` call, so they need no representation. -/
structure SettingsFile where
  username : Option String
  password : Option String
  descriptor : Option String
  origin : Option String
  avatar : Option String
  list_id : Option String
  warped : Option Bool
  name_as_userdata : Option Bool
  multi_face_policy : Option Int
deriving DecidableEq, Repr

/-- A settings file with every key absent. -/
def emptyFile : SettingsFile :=
  { username := none, password := none, descriptor := none, origin := none,
    avatar := none, list_id := none, warped := none, name_as_userdata := none,
    multi_face_policy := none }

/-- The `load_settings` method (lines 571-588).  `file = none` models both
a missing `uploader_settings.json` and any exception while opening or
parsing it: the whole body is wrapped in `try`/`except`, and the `except`
branch only logs, leaving every field at its current value `cur`.  On a
parsed file each field is `settings.get(key, current value)`, except
`multi_face_policy` whose fallback is the literal `1`. -/
def load_settings (file : Option SettingsFile) (cur : Settings) : Settings :=
  match file with
  | none => cur
  | some s =>
      { username := s.username.getD cur.username
        password := s.password.getD cur.password
        descriptor := s.descriptor.getD cur.descriptor
        origin := s.origin.getD cur.origin
        avatar := s.avatar.getD cur.avatar
        list_id := s.list_id.getD cur.list_id
        warped := s.warped.getD cur.warped
        name_as_userdata := s.name_as_userdata.getD cur.name_as_userdata
        multi_face_policy := s.multi_face_policy.getD 1 }

/-- The thirteen flags of the external command's documented flag set. -/
def requiredFlags : List String :=
  ["--login", "--password", "--source", "--warped", "--name_as_userdata",
   "--descriptor", "--origin", "--avatar", "--list_id", "--multi_face_policy",
   "--basic_attr", "--score_threshold", "--list_linked"]

/-- The configuration strings that appear as values in `build_cmd`. -/
def cmdValues (python_exec : String) (a : UploadArgs) : List String :=
  [python_exec, a.script_path, a.username, a.password, a.source,
   a.descriptor, a.origin, a.avatar, a.list_id, toString a.multi_face_policy]

/-- Sample argument record used by concrete witnesses. -/
def sampleArgs : UploadArgs :=
  { script_path := "folder_uploader.py"
    folder_path := "/data/faces"
    username := "admin"
    password := "hunter2"
    source := "/data/faces"
    descriptor := "1"
    origin := "http://127.0.0.1:5000"
    avatar := "1"
    list_id := "90936600-d44b-4717-9b33-d685faf00616"
    warped := false
    name_as_userdata := false
    multi_face_policy := 1 }

/-- Proposition that a list of messages is a contiguous segment of some run
of `run_upload_mp`: what a poll finds in a job's queue is the block of
messages put after those already consumed and before those not yet put. -/
def TraceSegment (q : List QueueMsg) : Prop :=
  ∃ python_exec a b, q <:+: run_upload_mp python_exec a b

/-- Argument record whose username field is itself a flag token, used to
show `build_cmd` can repeat a flag string. -/
def badArgs : UploadArgs :=
  { sampleArgs with username := "--password" }

theorem run_upload_mp_ran_eq (python_exec : String) (a : UploadArgs)
    (lines : List String) (rc : Int) :
    run_upload_mp python_exec a (SpawnResult.ran lines rc) =
      preSpawnEvents python_exec a ++
      (lines.filter (fun l => l ≠ "")).map (fun l => QueueMsg.output l.trim) ++
      [QueueMsg.status (exitStatusMsg rc), QueueMsg.finished] := rfl

theorem filter_isStatus_output_map (xs : List String) :
    (xs.map (fun l => QueueMsg.output l.trim)).filter isStatus = [] := by
  induction xs with
  | nil => rfl
  | cons x xs ih => simp [isStatus, ih]

theorem run_upload_mp_concat (python_exec : String) (a : UploadArgs) (b : SpawnResult) :
    ∃ l, run_upload_mp python_exec a b = l ++ [QueueMsg.finished] ∧
      QueueMsg.finished ∉ l := by
  cases b with
  | spawnError msg =>
      refine ⟨preSpawnEvents python_exec a ++
        [QueueMsg.error ("Error running upload: " ++ msg)], ?_, ?_⟩
      · simp [run_upload_mp]
      · simp [preSpawnEvents]
  | ran lines rc =>
      refine ⟨preSpawnEvents python_exec a ++
        (lines.filter (fun l => l ≠ "")).map (fun l => QueueMsg.output l.trim) ++
        [QueueMsg.status (exitStatusMsg rc)], ?_, ?_⟩
      · simp [run_upload_mp]
      · simp [preSpawnEvents]

/-- C1: for every job whose external process starts and exits, `run_upload_mp`
puts exactly one status message on the queue; its text is
`'Upload completed successfully!'` when the exit code is 0 and
`'Upload failed with code {rc}'` (exit code preserved) otherwise, and it is
the second-to-last message, directly before the final `finished`. -/
theorem c1_exit_status_event (python_exec : String) (a : UploadArgs)
    (lines : List String) (rc : Int) :
    (run_upload_mp python_exec a (SpawnResult.ran lines rc)).filter isStatus =
      [QueueMsg.status (if rc = 0 then "Upload completed successfully!"
        else "Upload failed with code " ++ toString rc)] ∧
    (run_upload_mp python_exec a (SpawnResult.ran lines rc)).dropLast.getLast? =
      some (QueueMsg.status (if rc = 0 then "Upload completed successfully!"
        else "Upload failed with code " ++ toString rc)) := by
  constructor
  · rw [run_upload_mp_ran_eq, List.filter_append, List.filter_append,
      filter_isStatus_output_map]
    simp [preSpawnEvents, isStatus, exitStatusMsg]
  · have h : run_upload_mp python_exec a (SpawnResult.ran lines rc) =
        (preSpawnEvents python_exec a ++
          (lines.filter (fun l => l ≠ "")).map (fun l => QueueMsg.output l.trim) ++
          [QueueMsg.status (exitStatusMsg rc)]) ++ [QueueMsg.finished] := by
      rw [run_upload_mp_ran_eq]
      simp
    rw [h, List.dropLast_concat, List.getLast?_concat]
    simp [exitStatusMsg]

/-- C2: for every job run — spawn error included — `run_upload_mp` puts a
`finished` message on the queue, it is the last message put, and it is put
exactly once. -/
theorem c2_finished_last (python_exec : String) (a : UploadArgs) (b : SpawnResult) :
    (run_upload_mp python_exec a b).getLast? = some QueueMsg.finished ∧
    (run_upload_mp python_exec a b).count QueueMsg.finished = 1 := by
  obtain ⟨l, hl, hmem⟩ := run_upload_mp_concat python_exec a b
  rw [hl]
  refine ⟨List.getLast?_concat _, ?_⟩
  rw [List.count_append, List.count_eq_zero.mpr hmem]
  simp

theorem segment_shape {α : Type} [DecidableEq α] (q l : List α) (f : α)
    (hinf : q <:+: l ++ [f]) (hne : f ∉ l) (hfq : f ∈ q) :
    ∃ q', q = q' ++ [f] ∧ f ∉ q' := by
  obtain ⟨s, t, hst⟩ := hinf
  have hcount : (s ++ q ++ t).count f = 1 := by
    rw [hst, List.count_append, List.count_eq_zero.mpr hne]
    simp
  rw [List.count_append, List.count_append] at hcount
  have hq1 : 0 < q.count f := List.count_pos_iff.mpr hfq
  have ht0 : t.count f = 0 := by omega
  have hlast : (s ++ q ++ t).getLast? = some f := by
    rw [hst, List.getLast?_concat]
  have ht : t = [] := by
    by_contra htne
    rw [List.append_assoc,
      List.getLast?_append_of_ne_nil _ (by simp [htne]),
      List.getLast?_append_of_ne_nil _ htne] at hlast
    have hft : f ∈ t := by
      have hd := List.dropLast_append_getLast? f (Option.mem_def.mpr hlast)
      rw [← hd]
      simp
    have : 0 < t.count f := List.count_pos_iff.mpr hft
    omega
  subst ht
  have hqne : q ≠ [] := by
    rintro rfl
    simp at hq1
  have hlast2 : q.getLast? = some f := by
    rw [List.append_nil, List.getLast?_append_of_ne_nil _ hqne] at hlast
    exact hlast
  have hq := List.dropLast_append_getLast? f (Option.mem_def.mpr hlast2)
  refine ⟨q.dropLast, hq.symm, ?_⟩
  intro hmem
  simp only [List.count_nil] at hcount
  have hsplit : q.count f = q.dropLast.count f + 1 := by
    conv_lhs => rw [← hq]
    rw [List.count_append]
    simp
  have hpos : 0 < q.dropLast.count f := List.count_pos_iff.mpr hmem
  omega

theorem intercalate_go_mem (sep : String) (s : String) :
    ∀ (as : List String) (acc : String),
      (s ∈ as ∨ s.data <:+: acc.data) →
      s.data <:+: (String.intercalate.go acc sep as).data := by
  intro as
  induction as with
  | nil =>
      intro acc h
      rcases h with h | h
      · simp at h
      · simpa [String.intercalate.go] using h
  | cons a as ih =>
      intro acc h
      rw [String.intercalate.go]
      apply ih
      rcases h with h | h
      · rcases List.mem_cons.mp h with rfl | h'
        · right
          refine ⟨(acc ++ sep).data, [], ?_⟩
          simp [String.data_append]
        · left; exact h'
      · right
        refine h.trans ⟨[], (sep ++ a).data, ?_⟩
        simp [String.data_append]

theorem mem_data_intercalate (sep s : String) (l : List String) (h : s ∈ l) :
    s.data <:+: (String.intercalate sep l).data := by
  cases l with
  | nil => simp at h
  | cons a as =>
      rw [String.intercalate]
      apply intercalate_go_mem
      rcases List.mem_cons.mp h with rfl | h'
      · right; exact ⟨[], [], by simp⟩
      · left; exact h'

/-- C10: on every run — spawn failure included — the first two messages
`run_upload_mp` puts on the queue, both put before `subprocess.Popen` is
reached, are `output` messages; the second one's text is `'Command: '`
followed by the space-joined command line, the command line contains the
configuration's password field, and the plaintext password is a verbatim
substring of the logged text. -/
theorem c10_password_in_log (python_exec : String) (a : UploadArgs) (b : SpawnResult) :
    (run_upload_mp python_exec a b).take 2 =
      [QueueMsg.output ("Starting upload from: " ++ a.folder_path),
       QueueMsg.output ("Command: " ++ String.intercalate " " (build_cmd python_exec a))] ∧
    a.password ∈ build_cmd python_exec a ∧
    a.password.data <:+:
      ("Command: " ++ String.intercalate " " (build_cmd python_exec a)).data := by
  refine ⟨?_, ?_, ?_⟩
  · cases b <;> rfl
  · simp [build_cmd]
  · have h1 := mem_data_intercalate " " a.password (build_cmd python_exec a)
      (by simp [build_cmd])
    refine h1.trans ⟨"Command: ".data, [], ?_⟩
    simp [String.data_append]

theorem fail_msg_ne_short (x t : String) (ht : t.length < 24) :
    "Upload failed with code " ++ x ≠ t := by
  intro h
  have hlen := congrArg String.length h
  rw [String.length_append] at hlen
  have h24 : ("Upload failed with code " : String).length = 24 := rfl
  omega

theorem runner_status_msg (m : String) (he : RunnerEmitted (QueueMsg.status m)) :
    m = "Upload completed successfully!" ∨
      ∃ rc : Int, rc ≠ 0 ∧ m = "Upload failed with code " ++ toString rc := by
  obtain ⟨python_exec, a, b, hmem⟩ := he
  cases b with
  | spawnError msg => simp [run_upload_mp, preSpawnEvents] at hmem
  | ran lines rc =>
      rw [run_upload_mp_ran_eq] at hmem
      simp [preSpawnEvents, List.mem_append, List.mem_map] at hmem
      by_cases h0 : rc = 0
      · left
        rw [hmem]
        simp [exitStatusMsg, h0]
      · right
        exact ⟨rc, h0, by rw [hmem]; simp [exitStatusMsg, h0]⟩

theorem apply_event_ne_initial (st : String) (e : QueueMsg) (he : RunnerEmitted e)
    (hst : st ≠ initialStatus) : apply_event st e ≠ initialStatus := by
  cases e with
  | output t => simpa [apply_event] using hst
  | error t => simpa [apply_event] using hst
  | finished => simp [apply_event, initialStatus]
  | status m =>
      rcases runner_status_msg m he with h | ⟨rc, -, h⟩
      · simp [apply_event, h, initialStatus]
      · simp only [apply_event]
        rw [h]
        exact fail_msg_ne_short _ _ (by decide)

theorem drainEvents_ne_initial (evs : List QueueMsg)
    (hv : ∀ e ∈ evs, RunnerEmitted e) (st : String) (hst : st ≠ initialStatus) :
    drainEvents st evs ≠ initialStatus := by
  induction evs generalizing st with
  | nil => simpa [drainEvents] using hst
  | cons e evs ih =>
      show drainEvents (apply_event st e) evs ≠ initialStatus
      exact ih (fun x hx => hv x (List.mem_cons_of_mem _ hx)) _
        (apply_event_ne_initial st e (hv e (List.mem_cons_self e evs)) hst)

/-- C3 (amended): the status field never reverts to the initial `Running`
value `'Uploading...'`: once it differs from it, no sequence of poll drains
(of messages the worker actually emits) and cancel requests brings it back.
Terminal values themselves are not stable — see the counterexample, where
the drained `finished` marker overwrites a terminal status. -/
theorem c3_never_reverts_to_running (ops : List JobOp)
    (hops : ∀ op ∈ ops, ValidOp op) (st : String) (hst : st ≠ initialStatus) :
    applyOps st ops ≠ initialStatus := by
  induction ops generalizing st with
  | nil => simpa [applyOps] using hst
  | cons op ops ih =>
      have hop := hops op (List.mem_cons_self op ops)
      show applyOps (applyOp st op) ops ≠ initialStatus
      apply ih (fun o ho => hops o (List.mem_cons_of_mem _ ho))
      cases op with
      | cancel alive =>
          cases alive
          · simpa [applyOp] using hst
          · simp [applyOp, initialStatus]
      | drain evs => exact drainEvents_ne_initial evs hop st hst

/-- C3 witness: a job stopped by cancel keeps a status other than `Running`
through a further drain of its `finished` marker and a further no-op cancel. -/
theorem c3_witness :
    applyOps "Stopped" [JobOp.drain [QueueMsg.finished], JobOp.cancel false] ≠
      initialStatus := by
  apply c3_never_reverts_to_running
  · intro op hop
    simp only [List.mem_cons, List.not_mem_nil, or_false] at hop
    rcases hop with rfl | rfl
    · intro e he
      simp only [List.mem_singleton] at he
      subst he
      exact ⟨"p", sampleArgs, SpawnResult.ran [] 0, by simp [run_upload_mp, preSpawnEvents]⟩
    · trivial
  · simp [initialStatus]

/-- C3 counterexample: starting from `Running`, draining the worker's
status message yields the terminal `Succeeded` value, and draining the next
message the worker emits (the `finished` marker) changes the status field
again, to `'Finished'` — so a status that has reached a terminal value is
still changed by a later drained event, refuting strict monotonicity. -/
theorem c3_counterexample :
    TerminalStatus (applyOps initialStatus
      [JobOp.drain [QueueMsg.status "Upload completed successfully!"]]) ∧
    RunnerEmitted (QueueMsg.status "Upload completed successfully!") ∧
    RunnerEmitted QueueMsg.finished ∧
    applyOps initialStatus
      [JobOp.drain [QueueMsg.status "Upload completed successfully!"],
       JobOp.drain [QueueMsg.finished]] = "Finished" ∧
    ("Finished" : String) ≠ "Upload completed successfully!" := by
  refine ⟨Or.inl rfl, ?_, ?_, rfl, by simp⟩
  · exact ⟨"p", sampleArgs, SpawnResult.ran [] 0,
      by simp [run_upload_mp, preSpawnEvents, exitStatusMsg]⟩
  · exact ⟨"p", sampleArgs, SpawnResult.ran [] 0, by simp [run_upload_mp, preSpawnEvents]⟩

theorem drainEvents_ne_finished (q : List QueueMsg)
    (hv : ∀ e ∈ q, RunnerEmitted e) (hnofin : QueueMsg.finished ∉ q)
    (st : String) (hst : st ≠ "Finished") :
    drainEvents st q ≠ "Finished" := by
  induction q generalizing st with
  | nil => simpa [drainEvents] using hst
  | cons e q ih =>
      show drainEvents (apply_event st e) q ≠ "Finished"
      apply ih (fun x hx => hv x (List.mem_cons_of_mem _ hx))
        (fun hx => hnofin (List.mem_cons_of_mem _ hx))
      cases e with
      | output t => simpa [apply_event] using hst
      | error t => simpa [apply_event] using hst
      | finished => exact absurd (List.mem_cons_self _ _) hnofin
      | status m =>
          rcases runner_status_msg m (hv _ (List.mem_cons_self _ _)) with h | ⟨rc, -, h⟩
          · simp [apply_event, h]
          · simp only [apply_event]
            rw [h]
            exact fail_msg_ne_short _ _ (by decide)

theorem drainEvents_finished_of_segment (q : List QueueMsg) (hq : TraceSegment q)
    (hfin : QueueMsg.finished ∈ q) (st : String) :
    drainEvents st q = "Finished" := by
  obtain ⟨python_exec, a, b, hinf⟩ := hq
  obtain ⟨l, hl, hmem⟩ := run_upload_mp_concat python_exec a b
  rw [hl] at hinf
  obtain ⟨q', rfl, -⟩ := segment_shape q l QueueMsg.finished hinf hmem hfin
  rw [drainEvents, List.foldl_append]
  rfl

/-- C4 (amended): a still-`Running` job whose queue holds a contiguous
segment of its worker's message sequence is removed from the tracked list
by a poll invocation if and only if its worker process is no longer alive
and the `finished` marker is among the drained messages.  Process liveness,
absent from the claim, is part of the prune condition; and after a full
drain the status field holds the `'Finished'` marker, not `Succeeded` —
see the counterexample. -/
theorem c4_removed_iff (j : Job) (hq : TraceSegment j.queue)
    (hst : j.status = initialStatus) :
    removedByPoll j = true ↔ (j.alive = false ∧ QueueMsg.finished ∈ j.queue) := by
  have hv : ∀ e ∈ j.queue, RunnerEmitted e := by
    obtain ⟨python_exec, a, b, hinf⟩ := hq
    exact fun e he => ⟨python_exec, a, b, hinf.subset he⟩
  have hchar : removedByPoll j = true ↔
      (j.alive = false ∧ drainEvents j.status j.queue = "Finished") := by
    simp [removedByPoll, keepJob, drainJob]
  constructor
  · intro h
    obtain ⟨ha, hdr⟩ := hchar.mp h
    refine ⟨ha, ?_⟩
    by_contra hnot
    exact drainEvents_ne_finished j.queue hv hnot j.status
      (by rw [hst]; decide) hdr
  · rintro ⟨ha, hfin⟩
    exact hchar.mpr ⟨ha, drainEvents_finished_of_segment j.queue hq hfin j.status⟩

/-- C4 witness: a `Running` job whose worker has exited and whose queue
holds the status message and the `finished` marker is removed by the poll. -/
theorem c4_witness :
    removedByPoll { alive := false, status := "Uploading...",
                    queue := [QueueMsg.status "Upload completed successfully!",
                              QueueMsg.finished],
                    folder := "/data/faces", list_id := "L" } = true := by
  apply (c4_removed_iff _ ?_ rfl).mpr ⟨rfl, by simp⟩
  exact ⟨"p", sampleArgs, SpawnResult.ran [] 0,
    preSpawnEvents "p" sampleArgs, [], by simp [run_upload_mp, exitStatusMsg]⟩

/-- C4 counterexample: a job whose process exited with code 0 and whose
channel is fully drained (the `finished` marker consumed — the status field
holds `'Finished'` — and no message pending) is kept, not removed, while
the worker process is still reported alive; and a full drain of a
successful run leaves the status field at `'Finished'`, never showing the
`Succeeded` text. -/
theorem c4_counterexample :
    removedByPoll { alive := true, status := "Finished", queue := [],
                    folder := "/data/faces", list_id := "L" } = false ∧
    drainEvents initialStatus (run_upload_mp "p" sampleArgs (SpawnResult.ran [] 0)) =
      "Finished" ∧
    ("Finished" : String) ≠ "Upload completed successfully!" := by
  refine ⟨rfl, rfl, by simp⟩

/-- C5 (amended): a poll invocation schedules another one if and only if
some job has a live worker process — equivalently, iff some job remaining
tracked after the invocation has a live worker.  The decision is taken from
process liveness, not from the number of jobs remaining tracked: see the
counterexample, where a job remains tracked yet no further invocation is
scheduled. -/
theorem filter_keep_any_alive (js : List Job) :
    ((js.map drainJob).filter keepJob).any (fun j => j.alive) =
      js.any (fun j => j.alive) := by
  induction js with
  | nil => rfl
  | cons j js ih =>
      rw [List.map_cons, List.filter_cons]
      by_cases hk : keepJob (drainJob j) = true
      · rw [if_pos hk, List.any_cons, ih]
        rfl
      · rw [if_neg hk, ih]
        have hja : j.alive = false := by
          by_contra h
          rw [Bool.not_eq_false] at h
          apply hk
          simp [keepJob, drainJob, h]
        rw [List.any_cons, hja]
        simp

theorem c5_reschedule_iff_live_job (jobs : List Job) :
    (pollStep jobs).snd = (pollStep jobs).fst.any (fun j => j.alive) :=
  (filter_keep_any_alive jobs).symm

/-- C5 counterexample: a single tracked job whose worker was terminated
(process dead, status `'Stopped'`, queue empty) survives the prune — one
job remains tracked — yet the invocation does not schedule another one,
refuting "reschedules iff the number of jobs remaining tracked is greater
than zero" and "keeps re-invoking until the tracked set is empty". -/
theorem c5_counterexample :
    (pollStep [{ alive := false, status := "Stopped", queue := [],
                 folder := "/data/faces", list_id := "L" }]).fst.length = 1 ∧
    (pollStep [{ alive := false, status := "Stopped", queue := [],
                 folder := "/data/faces", list_id := "L" }]).snd = false := by
  constructor <;> rfl

/-- C6 (amended): cancel (`stop_upload` / `stop_selected_job`) is guarded
by worker-process liveness, not by the status field: when the worker is
alive it is terminated and the status set to `'Stopped'` whatever the
status was — including an already-terminal one — and when the worker is
not alive the job is left entirely unchanged, even if its status field
still shows `Running`; either way no error is raised. -/
theorem c6_cancel_guarded_by_liveness (j : Job) :
    (j.alive = true → stop_job_state j = { j with status := "Stopped" }) ∧
    (j.alive = false → stop_job_state j = j) := by
  constructor <;> intro h <;> simp [stop_job_state, h]

/-- C6 witness: cancel on a live-process `Running` job sets `'Stopped'`;
cancel on a dead-process job changes nothing. -/
theorem c6_witness :
    stop_job_state { alive := true, status := "Uploading...", queue := [],
                     folder := "/f", list_id := "L" } =
      { alive := true, status := "Stopped", queue := [],
        folder := "/f", list_id := "L" } ∧
    stop_job_state { alive := false, status := "Stopped", queue := [],
                     folder := "/f", list_id := "L" } =
      { alive := false, status := "Stopped", queue := [],
        folder := "/f", list_id := "L" } :=
  ⟨(c6_cancel_guarded_by_liveness _).1 rfl, (c6_cancel_guarded_by_liveness _).2 rfl⟩

/-- C6 counterexample: a job whose status field already holds the terminal
`Succeeded` text but whose worker process is still alive is NOT left
unchanged by cancel — its status is overwritten with `'Stopped'` — so
"cancel on a job already in a terminal status leaves the job's state
unchanged" fails on this code. -/
theorem c6_counterexample :
    TerminalStatus "Upload completed successfully!" ∧
    (stop_job_state { alive := true, status := "Upload completed successfully!",
                      queue := [], folder := "/f", list_id := "L" }).status =
      "Stopped" ∧
    stop_job_state { alive := true, status := "Upload completed successfully!",
                     queue := [], folder := "/f", list_id := "L" } ≠
      { alive := true, status := "Upload completed successfully!",
        queue := [], folder := "/f", list_id := "L" } := by
  refine ⟨Or.inl rfl, rfl, ?_⟩
  decide

/-- C7 (amended): terminating a job's worker truncates its message
sequence: what reaches the channel is a prefix of the full run, and it
contains the terminal `finished` marker only when the kill came after the
whole sequence — including `StatusChanged` and `Finished` — had already
been emitted.  A cancel that lands earlier leaves the channel without its
terminal events. -/
theorem c7_kill_truncates (python_exec : String) (a : UploadArgs) (b : SpawnResult)
    (k : Nat) :
    emittedBeforeKill python_exec a b k <+: run_upload_mp python_exec a b ∧
    (QueueMsg.finished ∈ emittedBeforeKill python_exec a b k ↔
      (run_upload_mp python_exec a b).length ≤ k) := by
  constructor
  · exact List.take_prefix k _
  obtain ⟨l, hl, hmem⟩ := run_upload_mp_concat python_exec a b
  unfold emittedBeforeKill
  rw [hl]
  constructor
  · intro hfin
    by_contra hk
    push_neg at hk
    have hkl : k ≤ l.length := by
      rw [List.length_append, List.length_singleton] at hk
      omega
    rw [List.take_append_of_le_length hkl] at hfin
    exact hmem (List.take_subset _ _ hfin)
  · intro hk
    rw [List.take_of_length_le hk]
    simp

/-- C7 counterexample: a worker killed right after its two pre-spawn
messages has emitted two messages, no `status` message and no `finished`
marker — the cancelled job's channel ends without its terminal events,
refuting "still emits its final StatusChanged and Finished events". -/
theorem c7_counterexample :
    QueueMsg.finished ∉ emittedBeforeKill "p" sampleArgs (SpawnResult.ran [] 0) 2 ∧
    (emittedBeforeKill "p" sampleArgs (SpawnResult.ran [] 0) 2).filter isStatus = [] ∧
    (emittedBeforeKill "p" sampleArgs (SpawnResult.ran [] 0) 2).length = 2 := by
  refine ⟨?_, rfl, rfl⟩
  simp [emittedBeforeKill, run_upload_mp, preSpawnEvents]

/-- C9: loading settings is a total function of the possibly-absent file —
never an exception to the caller: an absent or unparseable file yields the
built-in defaults unchanged, a parsed file with no recognized keys does
too, and each key missing from a parsed file falls back to its built-in
default individually. -/
theorem c9_load_never_fails :
    load_settings none defaultSettings = defaultSettings ∧
    load_settings (some emptyFile) defaultSettings = defaultSettings ∧
    (∀ f : SettingsFile, f.username = none →
      (load_settings (some f) defaultSettings).username = "") ∧
    (∀ f : SettingsFile, f.password = none →
      (load_settings (some f) defaultSettings).password = "") ∧
    (∀ f : SettingsFile, f.descriptor = none →
      (load_settings (some f) defaultSettings).descriptor = "1") ∧
    (∀ f : SettingsFile, f.origin = none →
      (load_settings (some f) defaultSettings).origin = "http://127.0.0.1:5000") ∧
    (∀ f : SettingsFile, f.avatar = none →
      (load_settings (some f) defaultSettings).avatar = "1") ∧
    (∀ f : SettingsFile, f.list_id = none →
      (load_settings (some f) defaultSettings).list_id =
        "90936600-d44b-4717-9b33-d685faf00616") ∧
    (∀ f : SettingsFile, f.warped = none →
      (load_settings (some f) defaultSettings).warped = false) ∧
    (∀ f : SettingsFile, f.name_as_userdata = none →
      (load_settings (some f) defaultSettings).name_as_userdata = false) ∧
    (∀ f : SettingsFile, f.multi_face_policy = none →
      (load_settings (some f) defaultSettings).multi_face_policy = 1) := by
  refine ⟨rfl, rfl, ?_, ?_, ?_, ?_, ?_, ?_, ?_, ?_, ?_⟩ <;>
    (intro f h; simp [load_settings, h, defaultSettings])

/-- C9 witness: concrete fallback values on an all-keys-missing file. -/
theorem c9_witness :
    (load_settings (some emptyFile) defaultSettings).username = "" ∧
    (load_settings (some emptyFile) defaultSettings).multi_face_policy = 1 :=
  ⟨c9_load_never_fails.2.2.1 emptyFile rfl,
   c9_load_never_fails.2.2.2.2.2.2.2.2.2.2 emptyFile rfl⟩

set_option maxHeartbeats 1000000 in
/-- C8 (amended): for every configuration none of whose string values is
itself one of the thirteen flag tokens, the produced argument vector
contains every required flag exactly once, and the `--warped` and
`--name_as_userdata` value slots always hold `"1"` or `"0"`.  Without that
proviso uniqueness fails — see the counterexample, where a configuration
value equal to a flag token makes the flag occur twice.  (`build_cmd` never
consults the file system, so whether the folder exists does not affect the
vector.) -/
theorem c8_flags_unique (python_exec : String) (a : UploadArgs)
    (h : ∀ s ∈ cmdValues python_exec a, s ∉ requiredFlags) :
    (∀ f ∈ requiredFlags, (build_cmd python_exec a).count f = 1) ∧
    ((build_cmd python_exec a)[9]? = some "1" ∨
      (build_cmd python_exec a)[9]? = some "0") ∧
    ((build_cmd python_exec a)[11]? = some "1" ∨
      (build_cmd python_exec a)[11]? = some "0") ∧
    (build_cmd python_exec a)[8]? = some "--warped" ∧
    (build_cmd python_exec a)[10]? = some "--name_as_userdata" := by
  refine ⟨?_, ?_, ?_, rfl, rfl⟩
  · intro f hf
    have h1 : python_exec ≠ f := fun he =>
      absurd (show python_exec ∈ requiredFlags by rw [he]; exact hf)
        (h python_exec (by simp [cmdValues]))
    have h2 : a.script_path ≠ f := fun he =>
      absurd (show a.script_path ∈ requiredFlags by rw [he]; exact hf)
        (h a.script_path (by simp [cmdValues]))
    have h3 : a.username ≠ f := fun he =>
      absurd (show a.username ∈ requiredFlags by rw [he]; exact hf)
        (h a.username (by simp [cmdValues]))
    have h4 : a.password ≠ f := fun he =>
      absurd (show a.password ∈ requiredFlags by rw [he]; exact hf)
        (h a.password (by simp [cmdValues]))
    have h5 : a.source ≠ f := fun he =>
      absurd (show a.source ∈ requiredFlags by rw [he]; exact hf)
        (h a.source (by simp [cmdValues]))
    have h6 : a.descriptor ≠ f := fun he =>
      absurd (show a.descriptor ∈ requiredFlags by rw [he]; exact hf)
        (h a.descriptor (by simp [cmdValues]))
    have h7 : a.origin ≠ f := fun he =>
      absurd (show a.origin ∈ requiredFlags by rw [he]; exact hf)
        (h a.origin (by simp [cmdValues]))
    have h8 : a.avatar ≠ f := fun he =>
      absurd (show a.avatar ∈ requiredFlags by rw [he]; exact hf)
        (h a.avatar (by simp [cmdValues]))
    have h9 : a.list_id ≠ f := fun he =>
      absurd (show a.list_id ∈ requiredFlags by rw [he]; exact hf)
        (h a.list_id (by simp [cmdValues]))
    have h10 : toString a.multi_face_policy ≠ f := fun he =>
      absurd (show toString a.multi_face_policy ∈ requiredFlags by rw [he]; exact hf)
        (h (toString a.multi_face_policy) (by simp [cmdValues]))
    have hv1 : ("1" : String) ≠ f := fun he =>
      absurd (show ("1" : String) ∈ requiredFlags by rw [he]; exact hf) (by decide)
    have hv0 : ("0" : String) ≠ f := fun he =>
      absurd (show ("0" : String) ∈ requiredFlags by rw [he]; exact hf) (by decide)
    have hv00 : ("0.0" : String) ≠ f := fun he =>
      absurd (show ("0.0" : String) ∈ requiredFlags by rw [he]; exact hf) (by decide)
    have hwv : (if a.warped then "1" else "0") ≠ f := by
      cases a.warped
      · exact hv0
      · exact hv1
    have hnv : (if a.name_as_userdata then "1" else "0") ≠ f := by
      cases a.name_as_userdata
      · exact hv0
      · exact hv1
    generalize hms : toString a.multi_face_policy = ms at h10
    simp only [requiredFlags, List.mem_cons, List.not_mem_nil, or_false] at hf
    rcases hf with rfl | rfl | rfl | rfl | rfl | rfl | rfl | rfl | rfl | rfl | rfl | rfl | rfl <;>
      · simp only [build_cmd, hms, List.count_cons, List.count_nil, beq_iff_eq,
          h1, h2, h3, h4, h5, h6, h7, h8, h9, h10, hwv, hnv, hv1, hv0, hv00,
          ne_eq, ite_false, ite_true, if_neg, if_pos]
        decide
  · cases hw : a.warped
    · right; simp [build_cmd, hw]
    · left; simp [build_cmd, hw]
  · cases hn : a.name_as_userdata
    · right; simp [build_cmd, hn]
    · left; simp [build_cmd, hn]

/-- C8 witness: a benign concrete configuration yields each flag once. -/
theorem c8_witness :
    (build_cmd "/usr/bin/python3" sampleArgs).count "--login" = 1 ∧
    (build_cmd "/usr/bin/python3" sampleArgs).count "--password" = 1 :=
  ⟨(c8_flags_unique "/usr/bin/python3" sampleArgs (by decide)).1 "--login" (by decide),
   (c8_flags_unique "/usr/bin/python3" sampleArgs (by decide)).1 "--password" (by decide)⟩

/-- C8 counterexample: a configuration whose username field is the string
`'--password'` produces a vector in which the required flag `'--password'`
occurs twice, so the claim's unconditional "every required flag exactly
once" fails. -/
theorem c8_counterexample :
    (build_cmd "/usr/bin/python3" badArgs).count "--password" = 2 := by decide
